import Mathlib

/-!
Shallow embedding of the Velocity-DB build/release orchestrator
(`scripts/pdg.py`, `scripts/_lib/*.py`, `scripts/build.py`,
`scripts/build_frontend.py`) together with theorems settling the
frozen specification claims.

Python strings are modelled by `String`, filesystem modification times
by `Nat`-valued timestamps (only their order is ever consulted), and
filesystem / subprocess state by explicit records passed to the
embedded functions.
-/

namespace VelocityDB

/-! ### Python string primitives used by the scripts -/

/-- The characters Python's `str.strip()` / `\s` treat as whitespace. -/
def isPySpace (c : Char) : Bool :=
  c = ' ' || c = '\t' || c = '\n' || c = '\r' || c = '\x0b' || c = '\x0c'

/-- Python `s.startswith(p)`. -/
def pyStartsWith (s p : String) : Bool :=
  p.toList.isPrefixOf s.toList

/-- Python `s.lstrip(c)` for a single strip character `c`. -/
def pyLstripChar (s : String) (c : Char) : String :=
  String.mk (s.toList.dropWhile (· = c))

/-- Python `s.strip()` (whitespace from both ends). -/
def pyStrip (s : String) : String :=
  String.mk (((s.toList.dropWhile isPySpace).reverse.dropWhile isPySpace).reverse)

/-- Split a list of characters on a separator character.
Mirrors Python `s.split(c)`: an empty input yields `[[]]`. -/
def splitCharsOn (c : Char) : List Char → List (List Char)
  | [] => [[]]
  | x :: xs =>
      let rest := splitCharsOn c xs
      if x = c then [] :: rest
      else match rest with
        | [] => [[x]]
        | r :: rs => (x :: r) :: rs

/-- Python `s.split(c)` for a one-character separator. -/
def pySplitChar (c : Char) (s : String) : List String :=
  (splitCharsOn c s.toList).map String.mk

/-- Numeric value of a list of decimal digit characters. -/
def digitsToNat (cs : List Char) : Nat :=
  cs.foldl (fun a c => a * 10 + (c.toNat - 48)) 0

/-- Python `int(s)` restricted to unsigned decimal literals (`\d+`);
other inputs raise `ValueError`, modelled as `none`. -/
def parsePyNat (s : String) : Option Nat :=
  let cs := s.toList
  if cs ≠ [] && cs.all Char.isDigit then some (digitsToNat cs) else none

/-- Python `int(s)` on optionally sign-marked decimal literals.
Exotic accepted forms (surrounding whitespace, underscores) are outside
the inputs the scripts ever produce and are modelled as failures. -/
def parsePyInt (s : String) : Option Int :=
  match s.toList with
  | '-' :: rest =>
      if rest ≠ [] && rest.all Char.isDigit then some (-(digitsToNat rest : Int)) else none
  | '+' :: rest =>
      if rest ≠ [] && rest.all Char.isDigit then some ((digitsToNat rest : Int)) else none
  | cs =>
      if cs ≠ [] && cs.all Char.isDigit then some ((digitsToNat cs : Int)) else none

/-- Does `sub` occur as a contiguous substring of `s` (Python `sub in s`)? -/
def containsSub (sub : List Char) : List Char → Bool
  | [] => sub.isEmpty
  | c :: rest => sub.isPrefixOf (c :: rest) || containsSub sub rest

/-! ### `scripts/_lib/build.py` — frontend dependency freshness -/

namespace Lib

/-- The slice of filesystem state consulted by the dependency-freshness
checks: existence of `frontend/node_modules` and `frontend/package.json`
and their modification times (`st_mtime`, order-only). -/
structure FrontendFS where
  nodeModulesExists : Bool
  packageJsonExists : Bool
  packageJsonMtime : Nat
  nodeModulesMtime : Nat
  deriving DecidableEq

/-- `_lib/build.py:build_frontend`, dependency-check step (lines 55-61):

    needs_install = not node_modules.exists()
    if not needs_install and package_json.exists():
        if pkg_mtime > nm_mtime:
            needs_install = True
-/
def needs_install (fs : FrontendFS) : Bool :=
  let needs := !fs.nodeModulesExists
  if !needs && fs.packageJsonExists then
    if fs.nodeModulesMtime < fs.packageJsonMtime then true else needs
  else needs

end Lib

namespace FrontendScript

/-- `scripts/build_frontend.py:check_node_modules` (lines 78-95):
returns `False` when `node_modules` is absent, `False` when
`package.json` exists and is newer than `node_modules`, else `True`. -/
def check_node_modules (fs : Lib.FrontendFS) : Bool :=
  if !fs.nodeModulesExists then false
  else if fs.packageJsonExists then
    if fs.nodeModulesMtime < fs.packageJsonMtime then false else true
  else true

end FrontendScript

/-! ### `scripts/build.py` — CMake generator cache reconciliation -/

namespace BuildScript

/-- The slice of build-directory state the cache reconciliation touches:
the lines of `build/CMakeCache.txt` (`none` = file absent) and whether
the `build/CMakeFiles` intermediate directory exists. -/
structure BuildDir where
  cacheLines : Option (List String)
  cmakeFilesExists : Bool
  deriving DecidableEq

/-- `scripts/build.py:get_cached_generator` inner parse of a matched
line: `line.split("=", 1)[1].strip()`.  A matched line without `=`
raises `IndexError`, swallowed by the surrounding `except` into `None`. -/
def parseCacheValue (l : String) : Option String :=
  let cs := l.toList
  if cs.contains '=' then
    some (pyStrip (String.mk ((cs.dropWhile (· ≠ '=')).drop 1)))
  else none

/-- `scripts/build.py:get_cached_generator` (lines 179-192): return the
parsed value of the first `CMakeCache.txt` line starting with
`CMAKE_GENERATOR:`, or `None` if the file is absent, no line matches,
or parsing the matched line raises. -/
def get_cached_generator (cacheLines : Option (List String)) : Option String :=
  match cacheLines with
  | none => none
  | some lines =>
      (lines.find? (fun l => pyStartsWith l "CMAKE_GENERATOR:")).bind parseCacheValue

/-- `scripts/build.py:clear_build_cache` (lines 195-206): delete
`CMakeCache.txt` and `CMakeFiles` when present (each guarded by an
existence check, so re-running never attempts a second delete). -/
def clear_build_cache (_d : BuildDir) : BuildDir :=
  { cacheLines := none, cmakeFilesExists := false }

/-- Whether `clear_build_cache` was invoked during reconciliation
(the spec's `CacheAction`). -/
inductive CacheAction where
  | NoOp
  | Invalidated
  deriving DecidableEq

/-- `scripts/build.py:main` generator-mismatch step (lines 300-307):

    cached_generator = get_cached_generator(build_dir)
    if cached_generator and cached_generator != generator:
        clear_build_cache(build_dir)

Python truthiness: an empty recorded value is falsy and skips the clear. -/
def reconcile_generator (d : BuildDir) (generator : String) : BuildDir × CacheAction :=
  match get_cached_generator d.cacheLines with
  | none => (d, CacheAction.NoOp)
  | some cached =>
      if cached ≠ "" && cached ≠ generator then
        (clear_build_cache d, CacheAction.Invalidated)
      else (d, CacheAction.NoOp)

end BuildScript

/-! ### `scripts/pdg.py` — release versioning (`cmd_release` inner functions) -/

namespace Pdg

/-- The candidate tag body after the optional leading `v` of the pattern
`^v?\d+\.\d+\.\d+$` used by `get_latest_tag`. -/
def semverCore (s : String) : String :=
  if pyStartsWith s "v" then String.mk (s.toList.drop 1) else s

/-- Parse a bare `\d+\.\d+\.\d+` triple (each component non-empty and
all digits), the body of `get_latest_tag`'s tag pattern. -/
def parseTripleCore (s : String) : Option (Nat × Nat × Nat) :=
  match (pySplitChar '.' s).mapM parsePyNat with
  | some [a, b, c] => some (a, b, c)
  | _ => none

/-- Numeric triple of a tag matching `^v?\d+\.\d+\.\d+$`, `none` otherwise. -/
def parseSemverTag (s : String) : Option (Nat × Nat × Nat) :=
  parseTripleCore (semverCore s)

/-- `re.match(r"^v?\d+\.\d+\.\d+$", tag)` as a Boolean. -/
def isSemverTag (s : String) : Bool :=
  (parseSemverTag s).isSome

/-- `pdg.py:get_latest_tag` (lines 173-187): `git tag --sort=-v:refname`
is an external collaborator, modelled by its outputs — a success flag
and the tag list in git's (descending version) output order.  The code
returns the first listed tag matching the semver pattern, with leading
`v` characters stripped (`tag.lstrip("v")`), and `None` when git fails
or no tag matches. -/
def get_latest_tag (gitOk : Bool) (sortedTags : List String) : Option String :=
  if gitOk then (sortedTags.find? isSemverTag).map (fun t => pyLstripChar t 'v')
  else none

/-- Numeric component-wise (lexicographic) order on version triples. -/
def verLe (a b : Nat × Nat × Nat) : Prop :=
  a.1 < b.1 ∨ (a.1 = b.1 ∧ (a.2.1 < b.2.1 ∨ (a.2.1 = b.2.1 ∧ a.2.2 ≤ b.2.2)))

instance (a b : Nat × Nat × Nat) : Decidable (verLe a b) := by
  unfold verLe; infer_instance

/-- Sort key of a tag under the numeric ordering (junk for
non-matching tags, which the selection never compares). -/
def verKey (s : String) : Nat × Nat × Nat :=
  (parseSemverTag s).getD (0, 0, 0)

instance : DecidableRel (fun x y : String => verLe (verKey y) (verKey x)) :=
  fun _ _ => inferInstanceAs (Decidable (verLe _ _))

/-- Interface contract of `git tag --sort=-v:refname`: the output is a
permutation of the repository's tags in which any two pattern-matching
tags appear in descending numeric order. -/
def gitVersionSortedDesc (sorted : List String) : Prop :=
  (sorted.filter isSemverTag).Sorted (fun x y => verLe (verKey y) (verKey x))

instance (l : List String) : Decidable (gitVersionSortedDesc l) := by
  unfold gitVersionSortedDesc; infer_instance

/-- `[int(x) for x in parts]`: all components parsed as integers, or a
`ValueError` (`none`) if any fails. -/
def parseAllInts : List String → Option (List Int)
  | [] => some []
  | s :: rest =>
      match parsePyInt s, parseAllInts rest with
      | some i, some is => some (i :: is)
      | _, _ => none

/-- `pdg.py:increment_version` (lines 189-197):
`parts = [int(x) for x in version.split(".")]`, then format the bumped
triple; a non-integer component raises `ValueError` and a missing index
raises `IndexError`, both modelled as `none`. -/
def increment_version (version bump : String) : Option String :=
  match parseAllInts (pySplitChar '.' version) with
  | none => none
  | some parts =>
      if bump = "major" then
        match parts with
        | p0 :: _ => some (toString (p0 + 1) ++ ".0.0")
        | [] => none
      else if bump = "minor" then
        match parts with
        | p0 :: p1 :: _ => some (toString p0 ++ "." ++ toString (p1 + 1) ++ ".0")
        | _ => none
      else
        match parts with
        | p0 :: p1 :: p2 :: _ =>
            some (toString p0 ++ "." ++ toString p1 ++ "." ++ toString (p2 + 1))
        | _ => none

/-- `pdg.py:cmd_release` version resolution when no usable explicit
version was given (lines 284-291). -/
def resolve_from_tags (latestTag : Option String) (bump : String) : Option String :=
  match latestTag with
  | some t => increment_version t bump
  | none => some "1.0.0"

/-- `pdg.py:cmd_release` version resolution (lines 281-291):
`if args.version: version = args.version.lstrip("v")`, else increment
the latest tag, else default to `1.0.0`.  Python truthiness makes an
empty explicit string fall through to the tag-based branch. -/
def resolve_version (explicitV : Option String) (latestTag : Option String)
    (bump : String) : Option String :=
  match explicitV with
  | some v => if v ≠ "" then some (pyLstripChar v 'v') else resolve_from_tags latestTag bump
  | none => resolve_from_tags latestTag bump

/-! #### Changelog generation (`categorize_commits`, `generate_release_notes`) -/

/-- The six commit categories of `pdg.py:categorize_commits`. -/
inductive CommitCat where
  | feat | fix | perf | refactor | docs | other
  deriving DecidableEq

/-- The category a commit subject is assigned to: the first matching
`str.startswith` test of the `categorize_commits` cascade. -/
def assign_category (msg : String) : CommitCat :=
  if pyStartsWith msg "feat" then CommitCat.feat
  else if pyStartsWith msg "fix" then CommitCat.fix
  else if pyStartsWith msg "perf" then CommitCat.perf
  else if pyStartsWith msg "refactor" then CommitCat.refactor
  else if pyStartsWith msg "docs" then CommitCat.docs
  else CommitCat.other

/-- The category buckets built by `categorize_commits`. -/
structure CommitCategories where
  feat : List String
  fix : List String
  perf : List String
  refactor : List String
  docs : List String
  other : List String
  deriving DecidableEq

/-- `pdg.py:categorize_commits` (lines 216-240), over the commit subject
lines (`commit["message"]`, the only field the categorization and the
notes consult).  The Python loop appends in history order; the
recursion conses the earlier subject onto the buckets of the rest. -/
def categorize_commits : List String → CommitCategories
  | [] => ⟨[], [], [], [], [], []⟩
  | m :: rest =>
      let c := categorize_commits rest
      if pyStartsWith m "feat" then { c with feat := m :: c.feat }
      else if pyStartsWith m "fix" then { c with fix := m :: c.fix }
      else if pyStartsWith m "perf" then { c with perf := m :: c.perf }
      else if pyStartsWith m "refactor" then { c with refactor := m :: c.refactor }
      else if pyStartsWith m "docs" then { c with docs := m :: c.docs }
      else { c with other := m :: c.other }

/-- `re.sub(r"^<cat>[:\s]*", "", msg)`: strip the category word and any
following run of colons and whitespace when the subject starts with it. -/
def strip_category (cat msg : String) : String :=
  if pyStartsWith msg cat then
    String.mk ((msg.toList.drop cat.toList.length).dropWhile (fun c => c = ':' || isPySpace c))
  else msg

/-- One section of `generate_release_notes`: emitted only when the
bucket is non-empty (Python truthiness of the list). -/
def notes_section (header cat : String) (msgs : List String) : List String :=
  if msgs ≠ [] then header :: msgs.map (fun m => "- " ++ strip_category cat m) ++ [""]
  else []

/-- `pdg.py:generate_release_notes` (lines 242-278): header line, then —
only when a previous tag exists — one section per non-empty bucket among
feat/fix/perf/refactor, joined with newlines.  `commits` stands for the
subjects `get_commits_since_tag` pulls from external git history. -/
def generate_release_notes (version : String) (prevTag : Option String)
    (commits : List String) : String :=
  let base := ["## v" ++ version ++ "\n"]
  match prevTag with
  | none => String.intercalate "\n" base
  | some _ =>
      let cats := categorize_commits commits
      String.intercalate "\n"
        (base
          ++ notes_section "## ✨ New Features\n" "feat" cats.feat
          ++ notes_section "## 🐛 Bug Fixes\n" "fix" cats.fix
          ++ notes_section "## ⚡ Performance\n" "perf" cats.perf
          ++ notes_section "## 🔧 Internal Changes\n" "refactor" cats.refactor)

/-! #### Distribution-bundle assembly (`cmd_package`, `cmd_release`) -/

/-- Outcome of an assembly step: the returned success flag, the entries
left in the `dist` bundle directory, and the outcome-relevant console
messages. -/
structure AssembleResult where
  ok : Bool
  dist : List String
  log : List String
  deriving DecidableEq

/-- `pdg.py:cmd_package` packaging step (lines 128-150), as a function
of which build outputs exist after `build_all`: the `dist` directory is
wiped and recreated empty, then the executable is copied *before* the
frontend output is checked. -/
def cmd_package_assemble (exeExists frontendExists : Bool) : AssembleResult :=
  if exeExists then
    if frontendExists then
      ⟨true, ["VelocityDB.exe", "frontend"],
        ["[OK] Copied: VelocityDB.exe", "[OK] Copied: frontend"]⟩
    else
      ⟨false, ["VelocityDB.exe"],
        ["[OK] Copied: VelocityDB.exe", "[FAIL] Frontend not found"]⟩
  else ⟨false, [], ["[FAIL] Executable not found"]⟩

/-- `pdg.py:cmd_release` distribution step (lines 315-333): both inputs
are checked for existence before any copy happens. -/
def cmd_release_assemble (exeExists frontendExists : Bool) : AssembleResult :=
  if !exeExists then ⟨false, [], ["[FAIL] Executable not found"]⟩
  else if !frontendExists then ⟨false, [], ["[FAIL] Frontend not found"]⟩
  else ⟨true, ["VelocityDB.exe", "frontend"], ["[OK] Files copied"]⟩

end Pdg

/-! ### MSVC environment bootstrap (`get_msvc_env`, two variants) -/

/-- Result of a bootstrap attempt: either the captured environment
mapping, or a process exit (`sys.exit(code)`). -/
inductive BootstrapOutcome where
  | ok (env : List (String × String))
  | exited (code : Nat)
  deriving DecidableEq

/-- Python `dict` insertion on an insertion-ordered association list:
an existing key keeps its position and gets the new value, a new key is
appended. -/
def pyDictInsert (d : List (String × String)) (k v : String) : List (String × String) :=
  if d.any (fun p => p.1 = k) then d.map (fun p => if p.1 = k then (k, v) else p)
  else d ++ [(k, v)]

/-- The `KEY=VALUE` stdout parse shared by both `get_msvc_env` variants:
for every line containing `=`, partition at the first `=` and insert
into the dict. -/
def parseEnvBlock (stdoutLines : List String) : List (String × String) :=
  stdoutLines.foldl
    (fun d l =>
      if l.toList.contains '=' then
        pyDictInsert d (String.mk (l.toList.takeWhile (· ≠ '=')))
          (String.mk ((l.toList.dropWhile (· ≠ '=')).drop 1))
      else d)
    []

namespace Lib

/-- `scripts/_lib/utils.py:get_msvc_env` (lines 111-142), after
`vcvars64.bat` was found, as a function of the subprocess exit code and
stdout lines: on exit code zero the parsed environment is returned
unconditionally — there is no emptiness check. -/
def get_msvc_env (returncode : Int) (stdoutLines : List String) : BootstrapOutcome :=
  if returncode ≠ 0 then BootstrapOutcome.exited 1
  else BootstrapOutcome.ok (parseEnvBlock stdoutLines)

end Lib

namespace BuildScript

/-- `scripts/build.py:get_msvc_env` (lines 105-123): like the library
variant, but an empty parsed environment is additionally treated as a
failure (`sys.exit(1)`). -/
def get_msvc_env (returncode : Int) (stdoutLines : List String) : BootstrapOutcome :=
  if returncode ≠ 0 then BootstrapOutcome.exited 1
  else
    let env := parseEnvBlock stdoutLines
    if env = [] then BootstrapOutcome.exited 1 else BootstrapOutcome.ok env

end BuildScript

/-! ### `_lib/build.py:build_backend` outcome model -/

namespace Lib

/-- Result of running a command-line operation: a Python return value
or a process exit (`sys.exit(code)`). -/
inductive ProcOutcome where
  | ret (b : Bool)
  | exited (code : Nat)
  deriving DecidableEq

/-- The external-collaborator outcomes `build_backend` branches on
(whether the executable was found afterwards only affects cosmetic
prints and is omitted). -/
structure BackendEnv where
  msvcOk : Bool
  toolsOk : Bool
  configureOk : Bool
  buildOk : Bool
  frontendDistExists : Bool
  copyOk : Bool
  deriving DecidableEq

/-- `scripts/_lib/build.py:build_backend` (lines 105-205) as a function
of its collaborators' outcomes; the log keeps the outcome-relevant
console messages.  The post-build frontend copy is wrapped in
`try/except` and followed unconditionally by `return True`. -/
def build_backend (build_type : String) (e : BackendEnv) : ProcOutcome × List String :=
  if build_type ≠ "Debug" && build_type ≠ "Release" then
    (ProcOutcome.ret false, ["ERROR: Invalid build type"])
  else if !e.msvcOk then (ProcOutcome.exited 1, [])
  else if !e.toolsOk then (ProcOutcome.ret false, [])
  else if !e.configureOk then (ProcOutcome.ret false, ["ERROR: CMake configuration failed"])
  else if !e.buildOk then (ProcOutcome.ret false, ["ERROR: Build failed"])
  else
    (ProcOutcome.ret true,
      if e.frontendDistExists then
        if e.copyOk then ["[OK] Copied: frontend/dist -> build frontend"]
        else ["[FAIL] copytree raised"]
      else ["[SKIP] Frontend dist not found"])

end Lib

end VelocityDB

namespace VelocityDB

/-- `find?` returns the head of the filtered list. -/
theorem find?_eq_head?_filter {α : Type} (p : α → Bool) :
    ∀ l : List α, l.find? p = (l.filter p).head?
  | [] => rfl
  | x :: xs => by
      rw [List.find?_cons, List.filter_cons]
      cases h : p x
      · simp only [h, cond_false, if_neg Bool.false_ne_true]
        exact find?_eq_head?_filter p xs
      · simp only [h, cond_true, if_true, List.head?_cons]

/-- `verLe` is reflexive. -/
theorem verLe_refl (a : Nat × Nat × Nat) : Pdg.verLe a a :=
  Or.inr ⟨rfl, Or.inr ⟨rfl, le_refl _⟩⟩

/-- **C4.** Version increment: on every well-formed version triple a
major bump increments MAJOR and resets MINOR and PATCH to 0, a minor
bump increments MINOR and resets PATCH to 0, and a patch bump
increments only PATCH; in particular
`increment("1.2.3", "minor") = "1.3.0"`,
`increment("1.2.3", "major") = "2.0.0"`, and
`increment("1.2.3", "patch") = "1.2.4"`. -/
theorem increment_version_spec :
    (∀ (v : String) (a b c : Int),
        Pdg.parseAllInts (pySplitChar '.' v) = some [a, b, c] →
        Pdg.increment_version v "major" = some (toString (a + 1) ++ ".0.0") ∧
        Pdg.increment_version v "minor" =
          some (toString a ++ "." ++ toString (b + 1) ++ ".0") ∧
        Pdg.increment_version v "patch" =
          some (toString a ++ "." ++ toString b ++ "." ++ toString (c + 1))) ∧
    Pdg.increment_version "1.2.3" "minor" = some "1.3.0" ∧
    Pdg.increment_version "1.2.3" "major" = some "2.0.0" ∧
    Pdg.increment_version "1.2.3" "patch" = some "1.2.4" := by
  refine ⟨?_, by decide, by decide, by decide⟩
  intro v a b c h
  refine ⟨?_, ?_, ?_⟩ <;> simp [Pdg.increment_version, h]

/-- Witness for C4 at the concrete well-formed triple `1.2.3`. -/
theorem increment_version_spec_witness :
    Pdg.increment_version "1.2.3" "major" = some (toString ((1 : Int) + 1) ++ ".0.0") ∧
    Pdg.increment_version "1.2.3" "minor" =
      some (toString (1 : Int) ++ "." ++ toString ((2 : Int) + 1) ++ ".0") ∧
    Pdg.increment_version "1.2.3" "patch" =
      some (toString (1 : Int) ++ "." ++ toString (2 : Int) ++ "." ++ toString ((3 : Int) + 1)) :=
  increment_version_spec.1 "1.2.3" 1 2 3 (by decide)

/-- **C3.** Latest-version selection: given git's sorted tag output (a
permutation of the repository's tags with pattern-matching tags in
descending numeric order), only tags matching `^v?\d+\.\d+\.\d+$` are
considered; the selected tag is a numeric component-wise maximum among
them (never a mere lexicographic maximum); among tags
`{1.2.0, 1.10.0, 1.2.3}` the selection is `1.10.0`; and with no
matching tag the resolved release version defaults to `1.0.0`. -/
theorem latest_tag_selection_spec (tags sorted : List String)
    (hperm : sorted.Perm tags) (hsort : Pdg.gitVersionSortedDesc sorted) :
    (Pdg.get_latest_tag true sorted = none ↔ ∀ t ∈ tags, Pdg.isSemverTag t = false) ∧
    (∀ s, Pdg.get_latest_tag true sorted = some s →
        ∃ t ∈ tags, Pdg.isSemverTag t = true ∧ s = pyLstripChar t 'v' ∧
          ∀ u ∈ tags, Pdg.isSemverTag u = true →
            Pdg.verLe (Pdg.verKey u) (Pdg.verKey t)) ∧
    (tags.Perm ["1.2.0", "1.10.0", "1.2.3"] →
        Pdg.get_latest_tag true sorted = some "1.10.0") ∧
    ((∀ t ∈ tags, Pdg.isSemverTag t = false) →
        ∀ bump, Pdg.resolve_version none (Pdg.get_latest_tag true sorted) bump
          = some "1.0.0") := by
  have hmax : ∀ s, Pdg.get_latest_tag true sorted = some s →
      ∃ t ∈ tags, Pdg.isSemverTag t = true ∧ s = pyLstripChar t 'v' ∧
        ∀ u ∈ tags, Pdg.isSemverTag u = true →
          Pdg.verLe (Pdg.verKey u) (Pdg.verKey t) := by
    intro s hs
    simp only [Pdg.get_latest_tag, if_true, Option.map_eq_some'] at hs
    obtain ⟨t₀, hfind, hstrip⟩ := hs
    have hp : Pdg.isSemverTag t₀ = true := List.find?_some hfind
    have hmem : t₀ ∈ sorted := List.mem_of_find?_eq_some hfind
    refine ⟨t₀, hperm.mem_iff.mp hmem, hp, hstrip.symm, ?_⟩
    intro u hu hpu
    have hufilter : u ∈ sorted.filter Pdg.isSemverTag := by
      have : u ∈ tags.filter Pdg.isSemverTag := List.mem_filter.mpr ⟨hu, hpu⟩
      exact ((hperm.filter Pdg.isSemverTag).mem_iff).mpr this
    rw [find?_eq_head?_filter] at hfind
    rcases hF : sorted.filter Pdg.isSemverTag with _ | ⟨a, rest⟩
    · rw [hF] at hfind; simp at hfind
    · rw [hF] at hfind
      simp only [List.head?_cons, Option.some.injEq] at hfind
      subst hfind
      have hsort' := hsort
      unfold Pdg.gitVersionSortedDesc at hsort'
      rw [hF] at hsort'
      have hrel := (List.sorted_cons.mp hsort').1
      rw [hF] at hufilter
      rcases List.mem_cons.mp hufilter with h | h
      · subst h; exact verLe_refl _
      · exact hrel u h
  have hnone : Pdg.get_latest_tag true sorted = none ↔
      ∀ t ∈ tags, Pdg.isSemverTag t = false := by
    simp only [Pdg.get_latest_tag, if_true, Option.map_eq_none', List.find?_eq_none,
      Bool.not_eq_true]
    constructor
    · intro h t ht; exact h t (hperm.mem_iff.mpr ht)
    · intro h t ht; exact h t (hperm.mem_iff.mp ht)
  refine ⟨hnone, hmax, ?_, ?_⟩
  · intro hex
    rcases hval : Pdg.get_latest_tag true sorted with _ | s
    · exfalso
      have := hnone.mp hval "1.10.0" (hex.mem_iff.mpr (by decide))
      simp [Pdg.isSemverTag, Pdg.parseSemverTag] at this
      exact absurd this (by decide)
    · obtain ⟨t, htmem, htp, hts, htmax⟩ := hmax s hval
      have htex : t ∈ ["1.2.0", "1.10.0", "1.2.3"] := hex.mem_iff.mp htmem
      have hkey : Pdg.verLe (Pdg.verKey "1.10.0") (Pdg.verKey t) :=
        htmax "1.10.0" (hex.mem_iff.mpr (by decide)) (by decide)
      have ht110 : t = "1.10.0" := by
        simp only [List.mem_cons, List.mem_singleton, List.not_mem_nil, or_false] at htex
        rcases htex with h | h | h
        · exfalso; rw [h] at hkey; exact absurd hkey (by decide)
        · exact h
        · exfalso; rw [h] at hkey; exact absurd hkey (by decide)
      rw [hts, ht110]; decide
  · intro hno bump
    rw [hnone.mpr hno]; rfl

/-- **C5 counterexample.** The claim predicts that commit subjects
`["feat: X", "fix: Y", "chore: Z"]` yield a release-notes document with
an "other" section containing `"chore: Z"` verbatim, and that exactly
five categories exist.  The emitted document contains no occurrence of
`chore` at all (the code never emits an "other" section), and `docs`-
prefixed subjects go to a sixth category. -/
theorem release_notes_counterexample :
    Pdg.generate_release_notes "1.1.0" (some "1.0.0") ["feat: X", "fix: Y", "chore: Z"]
      = "## v1.1.0\n\n## ✨ New Features\n\n- X\n\n## 🐛 Bug Fixes\n\n- Y\n" ∧
    containsSub "chore".toList
      (Pdg.generate_release_notes "1.1.0" (some "1.0.0")
          ["feat: X", "fix: Y", "chore: Z"]).toList = false ∧
    Pdg.assign_category "docs: W" = Pdg.CommitCat.docs := by decide

/-- **C5 (amended).** Every commit subject is assigned to exactly one of
the six categories feat/fix/perf/refactor/docs/other by the first
matching prefix in that priority order, each bucket in original
chronological order; the emitted Markdown contains one section per
non-empty category among feature/fix/performance/refactor only, with
the category prefix stripped from each line, and commits assigned to
docs or other never appear in (or affect) the document; in particular
`["feat: X", "fix: Y", "chore: Z"]` produce a feature section containing
`"X"` and a fix section containing `"Y"`, while `"chore: Z"` is dropped. -/
theorem release_notes_spec :
    (∀ msgs : List String, Pdg.categorize_commits msgs =
      ⟨msgs.filter (fun m => Pdg.assign_category m = Pdg.CommitCat.feat),
       msgs.filter (fun m => Pdg.assign_category m = Pdg.CommitCat.fix),
       msgs.filter (fun m => Pdg.assign_category m = Pdg.CommitCat.perf),
       msgs.filter (fun m => Pdg.assign_category m = Pdg.CommitCat.refactor),
       msgs.filter (fun m => Pdg.assign_category m = Pdg.CommitCat.docs),
       msgs.filter (fun m => Pdg.assign_category m = Pdg.CommitCat.other)⟩) ∧
    (∀ (v t : String) (msgs msgs' : List String),
        (Pdg.categorize_commits msgs).feat = (Pdg.categorize_commits msgs').feat →
        (Pdg.categorize_commits msgs).fix = (Pdg.categorize_commits msgs').fix →
        (Pdg.categorize_commits msgs).perf = (Pdg.categorize_commits msgs').perf →
        (Pdg.categorize_commits msgs).refactor = (Pdg.categorize_commits msgs').refactor →
        Pdg.generate_release_notes v (some t) msgs
          = Pdg.generate_release_notes v (some t) msgs') ∧
    Pdg.generate_release_notes "1.1.0" (some "1.0.0") ["feat: X", "fix: Y", "chore: Z"]
      = Pdg.generate_release_notes "1.1.0" (some "1.0.0") ["feat: X", "fix: Y"] ∧
    Pdg.strip_category "feat" "feat: X" = "X" ∧
    Pdg.strip_category "fix" "fix: Y" = "Y" := by
  have hcat : ∀ msgs : List String, Pdg.categorize_commits msgs =
      ⟨msgs.filter (fun m => Pdg.assign_category m = Pdg.CommitCat.feat),
       msgs.filter (fun m => Pdg.assign_category m = Pdg.CommitCat.fix),
       msgs.filter (fun m => Pdg.assign_category m = Pdg.CommitCat.perf),
       msgs.filter (fun m => Pdg.assign_category m = Pdg.CommitCat.refactor),
       msgs.filter (fun m => Pdg.assign_category m = Pdg.CommitCat.docs),
       msgs.filter (fun m => Pdg.assign_category m = Pdg.CommitCat.other)⟩ := by
    intro msgs
    induction msgs with
    | nil => rfl
    | cons m rest ih =>
      simp only [Pdg.categorize_commits]
      rw [ih]
      by_cases h1 : pyStartsWith m "feat" = true
      · simp [Pdg.assign_category, h1, List.filter_cons]
      · by_cases h2 : pyStartsWith m "fix" = true
        · simp [Pdg.assign_category, h1, h2, List.filter_cons]
        · by_cases h3 : pyStartsWith m "perf" = true
          · simp [Pdg.assign_category, h1, h2, h3, List.filter_cons]
          · by_cases h4 : pyStartsWith m "refactor" = true
            · simp [Pdg.assign_category, h1, h2, h3, h4, List.filter_cons]
            · by_cases h5 : pyStartsWith m "docs" = true
              · simp [Pdg.assign_category, h1, h2, h3, h4, h5, List.filter_cons]
              · simp [Pdg.assign_category, h1, h2, h3, h4, h5, List.filter_cons]
  refine ⟨hcat, ?_, by decide, by decide, by decide⟩
  intro v t msgs msgs' h1 h2 h3 h4
  simp only [Pdg.generate_release_notes]
  rw [h1, h2, h3, h4]

/-- Witness for C5 at the concrete subjects of the claim: the buckets
partition the three commits, and dropping the chore commit leaves the
document unchanged. -/
theorem release_notes_spec_witness :
    Pdg.categorize_commits ["feat: X", "fix: Y", "chore: Z"] =
      ⟨["feat: X"], ["fix: Y"], [], [], [], ["chore: Z"]⟩ ∧
    Pdg.generate_release_notes "2.0.0" (some "1.0.0") ["docs: W"]
      = Pdg.generate_release_notes "2.0.0" (some "1.0.0") [] := by
  constructor
  · rw [release_notes_spec.1 ["feat: X", "fix: Y", "chore: Z"]]; decide
  · exact release_notes_spec.2.1 "2.0.0" "1.0.0" ["docs: W"] []
      (by decide) (by decide) (by decide) (by decide)

/-- Witness for C3: git's sorted output for tags
`{1.2.0, 1.10.0, 1.2.3}` selects `1.10.0`, and a repository whose only
tag does not match the pattern resolves the release version to `1.0.0`. -/
theorem latest_tag_selection_spec_witness :
    Pdg.get_latest_tag true ["1.10.0", "1.2.3", "1.2.0"] = some "1.10.0" ∧
    Pdg.resolve_version none (Pdg.get_latest_tag true ["nightly"]) "patch"
      = some "1.0.0" := by
  have h := latest_tag_selection_spec ["1.2.0", "1.10.0", "1.2.3"]
    ["1.10.0", "1.2.3", "1.2.0"] (by decide) (by decide)
  have h2 := latest_tag_selection_spec ["nightly"] ["nightly"]
    (List.Perm.refl _) (by decide)
  exact ⟨h.2.2.1 (by decide), h2.2.2.2 (by decide) "patch"⟩

/-- **C6 counterexample.** With the binary present and the web output
missing, `cmd_package`'s assembly fails but has already copied the
binary: the bundle directory is left holding part (and only part) of
the expected contents, contradicting the no-partial-copy claim. -/
theorem assemble_partial_counterexample :
    (Pdg.cmd_package_assemble true false).ok = false ∧
    (Pdg.cmd_package_assemble true false).dist = ["VelocityDB.exe"] ∧
    (Pdg.cmd_package_assemble true false).dist ≠ [] ∧
    (Pdg.cmd_package_assemble true false).dist ≠ ["VelocityDB.exe", "frontend"] := by
  decide

/-- **C6 (amended).** Both assembly paths fail exactly when the binary
or the web-output directory is missing, logging a message naming the
missing input; the release path performs no partial copy (its bundle is
empty on every failure), but the package path, when the binary exists
and the web output is missing, leaves the bundle holding only the
binary. -/
theorem assemble_spec : ∀ e w : Bool,
    ((Pdg.cmd_package_assemble e w).ok = (e && w)) ∧
    ((Pdg.cmd_release_assemble e w).ok = (e && w)) ∧
    ((Pdg.cmd_release_assemble e w).dist =
        if e && w then ["VelocityDB.exe", "frontend"] else []) ∧
    ((Pdg.cmd_package_assemble e w).dist =
        if e then if w then ["VelocityDB.exe", "frontend"] else ["VelocityDB.exe"]
        else []) ∧
    (e = false →
        "[FAIL] Executable not found" ∈ (Pdg.cmd_package_assemble e w).log ∧
        "[FAIL] Executable not found" ∈ (Pdg.cmd_release_assemble e w).log) ∧
    (e = true → w = false →
        "[FAIL] Frontend not found" ∈ (Pdg.cmd_package_assemble e w).log ∧
        "[FAIL] Frontend not found" ∈ (Pdg.cmd_release_assemble e w).log) := by
  decide

/-- Witness for C6 (amended): both paths name the frontend as the
missing input when only it is absent, and the executable when it is. -/
theorem assemble_spec_witness :
    "[FAIL] Frontend not found" ∈ (Pdg.cmd_package_assemble true false).log ∧
    "[FAIL] Frontend not found" ∈ (Pdg.cmd_release_assemble true false).log ∧
    "[FAIL] Executable not found" ∈ (Pdg.cmd_release_assemble false true).log := by
  refine ⟨?_, ?_, ?_⟩
  · exact ((assemble_spec true false).2.2.2.2.2 rfl rfl).1
  · exact ((assemble_spec true false).2.2.2.2.2 rfl rfl).2
  · exact ((assemble_spec false true).2.2.2.2.1 rfl).2

/-- **C7 counterexample.** The library bootstrap used by the CLI
(`_lib/utils.py:get_msvc_env`) returns an empty mapping as a successful
result when the script exits zero without printing any `KEY=VALUE`
line, contradicting the claim that this fails. -/
theorem bootstrap_empty_env_counterexample :
    Lib.get_msvc_env 0 ["The system cannot find the path specified."]
      = BootstrapOutcome.ok [] := by decide

/-- **C7 (amended).** Both bootstrap variants fail when the
initialization script exits non-zero; the standalone build script's
variant additionally fails when parsing yields an empty mapping, while
the library variant used by the CLI returns the parsed mapping — empty
or not — as a successful result. -/
theorem bootstrap_env_spec (rc : Int) (stdoutLines : List String) :
    (rc ≠ 0 →
        Lib.get_msvc_env rc stdoutLines = BootstrapOutcome.exited 1 ∧
        BuildScript.get_msvc_env rc stdoutLines = BootstrapOutcome.exited 1) ∧
    (rc = 0 →
        Lib.get_msvc_env rc stdoutLines = BootstrapOutcome.ok (parseEnvBlock stdoutLines)) ∧
    (rc = 0 → parseEnvBlock stdoutLines = [] →
        BuildScript.get_msvc_env rc stdoutLines = BootstrapOutcome.exited 1) ∧
    (rc = 0 → parseEnvBlock stdoutLines ≠ [] →
        BuildScript.get_msvc_env rc stdoutLines
          = BootstrapOutcome.ok (parseEnvBlock stdoutLines)) := by
  refine ⟨?_, ?_, ?_, ?_⟩
  · intro h
    constructor <;> simp [Lib.get_msvc_env, BuildScript.get_msvc_env, h]
  · intro h; simp [Lib.get_msvc_env, h]
  · intro h he; simp [BuildScript.get_msvc_env, h, he]
  · intro h hne; simp [BuildScript.get_msvc_env, h, hne]

/-- Witness for C7 (amended) at concrete subprocess outcomes. -/
theorem bootstrap_env_spec_witness :
    Lib.get_msvc_env 1 [] = BootstrapOutcome.exited 1 ∧
    BuildScript.get_msvc_env 0 [] = BootstrapOutcome.exited 1 ∧
    BuildScript.get_msvc_env 0 ["PATH=C:\\VS"]
      = BootstrapOutcome.ok (parseEnvBlock ["PATH=C:\\VS"]) := by
  exact ⟨((bootstrap_env_spec 1 []).1 (by decide)).1,
    (bootstrap_env_spec 0 []).2.2.1 rfl (by decide),
    (bootstrap_env_spec 0 ["PATH=C:\\VS"]).2.2.2 rfl (by decide)⟩

/-- **C8 counterexample.** The explicit malformed version string `abc`
(not matching the triple pattern) is not rejected: the release proceeds,
resolving exactly `abc`; no `VersionParseError` path exists in the
code. -/
theorem explicit_version_counterexample :
    Pdg.resolve_version (some "abc") (some "1.2.3") "patch" = some "abc" ∧
    Pdg.isSemverTag "abc" = false := by decide

/-- **C8 (amended).** Every non-empty explicit version string passed to
the release operation is used verbatim after stripping leading `v`
characters; no well-formedness validation is performed and malformed
versions are not rejected. -/
theorem explicit_version_spec (v : String) (latestTag : Option String) (bump : String)
    (h : v ≠ "") :
    Pdg.resolve_version (some v) latestTag bump = some (pyLstripChar v 'v') := by
  simp [Pdg.resolve_version, h]

/-- Witness for C8 (amended) at the malformed version `abc`. -/
theorem explicit_version_spec_witness :
    Pdg.resolve_version (some "abc") (some "1.2.3") "patch"
      = some (pyLstripChar "abc" 'v') :=
  explicit_version_spec "abc" (some "1.2.3") "patch" (by decide)

/-- **C9 counterexample.** A cache file whose only line uses the claimed
key (`GENERATOR_NAME: Ninja`) yields no recorded generator, and
reconciliation consequently does nothing even against a different
desired generator; the recorded generator is read from the line with
key `CMAKE_GENERATOR:` instead. -/
theorem cached_generator_key_counterexample :
    BuildScript.get_cached_generator (some ["GENERATOR_NAME: Ninja"]) = none ∧
    BuildScript.reconcile_generator ⟨some ["GENERATOR_NAME: Ninja"], true⟩
        "Visual Studio 17 2022"
      = (⟨some ["GENERATOR_NAME: Ninja"], true⟩, BuildScript.CacheAction.NoOp) ∧
    BuildScript.get_cached_generator (some ["CMAKE_GENERATOR:INTERNAL=Ninja"])
      = some "Ninja" := by decide

/-- **C9 (amended).** The recorded generator is obtained from the first
cache-file line starting with `CMAKE_GENERATOR:` (CMakeCache syntax
`CMAKE_GENERATOR:<type>=<value>`), taking the text after the first `=`
with surrounding whitespace stripped; with no cache file, or no line
with that key, no generator is recorded. -/
theorem cached_generator_key_spec (lines : List String)
    (h : lines.all (fun l => !(pyStartsWith l "CMAKE_GENERATOR:")) = true) :
    BuildScript.get_cached_generator none = none ∧
    BuildScript.get_cached_generator (some lines) = none ∧
    BuildScript.get_cached_generator
        (some ["OTHER_KEY:STRING=1", "CMAKE_GENERATOR:INTERNAL=Ninja",
          "CMAKE_GENERATOR_PLATFORM:STRING=x64"]) = some "Ninja" ∧
    BuildScript.get_cached_generator
        (some ["CMAKE_GENERATOR:INTERNAL=  Visual Studio 17 2022  "])
      = some "Visual Studio 17 2022" := by
  refine ⟨rfl, ?_, by decide, by decide⟩
  have hfind : lines.find? (fun l => pyStartsWith l "CMAKE_GENERATOR:") = none := by
    rw [List.find?_eq_none]
    intro x hx
    have hx' := List.all_eq_true.mp h x hx
    simp only [Bool.not_eq_true'] at hx'
    simp [hx']
  simp [BuildScript.get_cached_generator, hfind]

/-- Witness for C9 (amended): a cache with no `CMAKE_GENERATOR:` line
records nothing, while the real CMakeCache line is read. -/
theorem cached_generator_key_spec_witness :
    BuildScript.get_cached_generator (some ["OTHER_KEY:STRING=1"]) = none ∧
    BuildScript.get_cached_generator
        (some ["OTHER_KEY:STRING=1", "CMAKE_GENERATOR:INTERNAL=Ninja",
          "CMAKE_GENERATOR_PLATFORM:STRING=x64"]) = some "Ninja" := by
  have h := cached_generator_key_spec ["OTHER_KEY:STRING=1"] (by decide)
  exact ⟨h.2.1, h.2.2.1⟩

/-- **C10.** The backend build reports success whenever the MSVC setup,
tool check, configure and build steps succeed, regardless of whether
`frontend/dist` exists or the frontend copy raises; the missing-dist
case logs a skip message and the failed-copy case a failure message,
without changing the outcome. -/
theorem build_backend_nonfatal_copy_spec :
    ∀ d c : Bool,
      (Lib.build_backend "Release" ⟨true, true, true, true, d, c⟩).1
        = Lib.ProcOutcome.ret true ∧
      (Lib.build_backend "Debug" ⟨true, true, true, true, d, c⟩).1
        = Lib.ProcOutcome.ret true ∧
      (d = false →
        "[SKIP] Frontend dist not found"
          ∈ (Lib.build_backend "Release" ⟨true, true, true, true, d, c⟩).2) ∧
      (d = true → c = false →
        "[FAIL] copytree raised"
          ∈ (Lib.build_backend "Release" ⟨true, true, true, true, d, c⟩).2) := by
  decide

/-- Witness for C10: a successful build with `frontend/dist` absent
still returns true and logs the skip; a failing copy logs the failure. -/
theorem build_backend_nonfatal_copy_spec_witness :
    (Lib.build_backend "Release" ⟨true, true, true, true, false, true⟩).1
      = Lib.ProcOutcome.ret true ∧
    "[SKIP] Frontend dist not found"
      ∈ (Lib.build_backend "Release" ⟨true, true, true, true, false, true⟩).2 ∧
    "[FAIL] copytree raised"
      ∈ (Lib.build_backend "Release" ⟨true, true, true, true, true, false⟩).2 := by
  exact ⟨(build_backend_nonfatal_copy_spec false true).1,
    (build_backend_nonfatal_copy_spec false true).2.2.1 rfl,
    (build_backend_nonfatal_copy_spec true false).2.2.2 rfl rfl⟩

end VelocityDB

namespace VelocityDB

/-! ### Claim theorems -/

/-- **C1.** For every manifest path and installed-dependencies directory
path, the dependency-install step is required (`needs_install` is true)
iff the installed-dependencies directory does not exist, or the manifest
file exists and its modification time strictly exceeds the directory's;
re-evaluating on an identical filesystem snapshot yields the same
result, and `check_node_modules` is the exact negation used by the
standalone frontend build script. -/
theorem needs_install_spec (fs : Lib.FrontendFS) :
    (Lib.needs_install fs = true ↔
      fs.nodeModulesExists = false ∨
        (fs.packageJsonExists = true ∧ fs.nodeModulesMtime < fs.packageJsonMtime)) ∧
    FrontendScript.check_node_modules fs = !Lib.needs_install fs ∧
    (∀ fs' : Lib.FrontendFS, fs' = fs → Lib.needs_install fs' = Lib.needs_install fs) := by
  obtain ⟨nm, pj, pm, nmm⟩ := fs
  refine ⟨?_, ?_, ?_⟩
  · cases nm <;> cases pj <;> by_cases h : nmm < pm <;>
      simp [Lib.needs_install, h]
  · cases nm <;> cases pj <;> by_cases h : nmm < pm <;>
      simp [Lib.needs_install, FrontendScript.check_node_modules, h]
  · intro fs' h; rw [h]

/-- Witness for C1 at a concrete filesystem snapshot: `node_modules`
exists but `package.json` is strictly newer, so install is required,
and `check_node_modules` agrees. -/
theorem needs_install_spec_witness :
    Lib.needs_install ⟨true, true, 10, 5⟩ = true ∧
    FrontendScript.check_node_modules ⟨true, true, 10, 5⟩ =
      !Lib.needs_install ⟨true, true, 10, 5⟩ ∧
    Lib.needs_install ⟨true, true, 10, 5⟩ = Lib.needs_install ⟨true, true, 10, 5⟩ := by
  have h := needs_install_spec ⟨true, true, 10, 5⟩
  exact ⟨h.1.mpr (Or.inr ⟨rfl, by decide⟩), h.2.1, h.2.2 ⟨true, true, 10, 5⟩ rfl⟩

/-- **C2.** Generator reconciliation: with no cache file nothing is
deleted; with the recorded generator equal to the desired one nothing is
deleted; with a (non-empty) recorded generator different from the
desired one, the cache file and the `CMakeFiles` intermediate directory
are deleted and the action is `Invalidated`; and a second reconciliation
on the resulting state with the same desired generator deletes nothing. -/
theorem reconcile_generator_spec (d : BuildScript.BuildDir) (gen : String) :
    (d.cacheLines = none →
      BuildScript.reconcile_generator d gen = (d, BuildScript.CacheAction.NoOp)) ∧
    (BuildScript.get_cached_generator d.cacheLines = some gen →
      BuildScript.reconcile_generator d gen = (d, BuildScript.CacheAction.NoOp)) ∧
    (∀ cg, BuildScript.get_cached_generator d.cacheLines = some cg → cg ≠ "" → cg ≠ gen →
      BuildScript.reconcile_generator d gen =
        (⟨none, false⟩, BuildScript.CacheAction.Invalidated) ∧
      BuildScript.reconcile_generator ⟨none, false⟩ gen =
        (⟨none, false⟩, BuildScript.CacheAction.NoOp)) := by
  refine ⟨?_, ?_, ?_⟩
  · intro h
    simp [BuildScript.reconcile_generator, BuildScript.get_cached_generator, h]
  · intro h
    simp [BuildScript.reconcile_generator, h]
  · intro cg h hne hgen
    constructor
    · simp [BuildScript.reconcile_generator, h, hne, hgen, BuildScript.clear_build_cache]
    · simp [BuildScript.reconcile_generator, BuildScript.get_cached_generator]

/-- Witness for C2: a cache recording the Visual Studio generator is
invalidated exactly once when the desired generator is Ninja. -/
theorem reconcile_generator_spec_witness :
    BuildScript.reconcile_generator
        ⟨some ["CMAKE_GENERATOR:INTERNAL=Visual Studio 17 2022"], true⟩ "Ninja" =
      (⟨none, false⟩, BuildScript.CacheAction.Invalidated) ∧
    BuildScript.reconcile_generator ⟨none, false⟩ "Ninja" =
      (⟨none, false⟩, BuildScript.CacheAction.NoOp) := by
  have h := (reconcile_generator_spec
      ⟨some ["CMAKE_GENERATOR:INTERNAL=Visual Studio 17 2022"], true⟩ "Ninja").2.2
      "Visual Studio 17 2022" (by decide) (by decide) (by decide)
  exact h

end VelocityDB
